import Mathlib

/-!
# Global CO2 Budget — verification of the notebook's computation

A shallow embedding of the notebook `notebooks/Global CO2 Budget.ipynb`.
The notebook is a linear sequence of scalar computations followed by
formatted prints.  We embed it twice, at two levels of detail:

* real-valued definitions mirroring each quantity's defining expression
  (`mCO2_in`, `wCO2_accum`, `mAir`, `mCO2_accum`, `mCO2_out`, `fCO2`);
* a statement-list program (`program`) over a small expression language,
  with both a functional semantics (`runStmts`) and a big-step relational
  semantics (`ExecR`), used for claims about assignment order, the print
  trace, division safety, and determinism.

Numeric literals in the notebook are Python floats; we model them as the
exact real numbers denoted by the source's decimal literals, and `numpy.pi`
as `Real.pi`.
-/

namespace CO2Budget

/-! ## The scalar quantities, mirrored from the notebook cells -/

/-- `mCO2_in = 34.5e9` (metric tonnes per year) immediately followed by
`mCO2_in = mCO2_in*1000` (kg per year): net value of the variable. -/
noncomputable def mCO2_in : ℝ := 34.5e9 * 1000

/-- `nCO2_accum = 2.4e-6`, kg-mol CO2 per kg-mol air per year. -/
noncomputable def nCO2_accum : ℝ := 2.4e-6

/-- `mwAir = 28.97`, kg air per kg-mol air. -/
noncomputable def mwAir : ℝ := 28.97

/-- `mwCO2 = 44.01`, kg CO2 per kg-mol CO2. -/
noncomputable def mwCO2 : ℝ := 44.01

/-- `wCO2_accum = nCO2_accum*mwCO2/mwAir`, kg CO2 per kg air per year. -/
noncomputable def wCO2_accum : ℝ := nCO2_accum * mwCO2 / mwAir

/-- `R = 6371000`, Earth radius in meters. -/
noncomputable def R : ℝ := 6371000

/-- `A = 4*pi*R**2`, Earth area in square meters. -/
noncomputable def A : ℝ := 4 * Real.pi * R ^ 2

/-- `g = 9.81`, N per kg. -/
noncomputable def g : ℝ := 9.81

/-- `P = 101325`, N per square meter. -/
noncomputable def P : ℝ := 101325

/-- `mAir = A*P/g`, mass of the atmosphere in kg. -/
noncomputable def mAir : ℝ := A * P / g

/-- `mCO2_accum = wCO2_accum*mAir`, kg CO2 per year. -/
noncomputable def mCO2_accum : ℝ := wCO2_accum * mAir

/-- `mCO2_out = mCO2_in - mCO2_accum`, kg CO2 per year. -/
noncomputable def mCO2_out : ℝ := mCO2_in - mCO2_accum

/-- `fCO2 = mCO2_accum/mCO2_in`, fraction retained in the atmosphere. -/
noncomputable def fCO2 : ℝ := mCO2_accum / mCO2_in

/-! ## The program text as a statement list -/

/-- Arithmetic expressions of the notebook: rational literals, `pi`,
variables, and the operators `+ - * / **` that appear in the source. -/
inductive Expr where
  | lit : ℚ → Expr
  | pi : Expr
  | var : String → Expr
  | add : Expr → Expr → Expr
  | sub : Expr → Expr → Expr
  | mul : Expr → Expr → Expr
  | div : Expr → Expr → Expr
  | pow : Expr → ℕ → Expr
  deriving DecidableEq

/-- Statements of the notebook: assignments and formatted prints. -/
inductive Stmt where
  | assign : String → Expr → Stmt
  | print : String → Expr → Stmt
  deriving DecidableEq

/-- An environment maps variable names to real values (unset names read 0;
the notebook never reads an unset name). -/
def Env : Type := String → ℝ

/-- Update one variable in an environment. -/
def setVar (env : Env) (x : String) (v : ℝ) : Env :=
  fun y => if y = x then v else env y

/-- Evaluation of expressions over the reals. -/
noncomputable def eval (env : Env) : Expr → ℝ
  | .lit q => (q : ℝ)
  | .pi => Real.pi
  | .var x => env x
  | .add a b => eval env a + eval env b
  | .sub a b => eval env a - eval env b
  | .mul a b => eval env a * eval env b
  | .div a b => eval env a / eval env b
  | .pow a n => eval env a ^ n

/-- Program state: the environment together with the trace of printed
lines, each a format string paired with the real value printed into it. -/
def State : Type := Env × List (String × ℝ)

/-- Effect of one statement on the state. -/
noncomputable def step (σ : State) : Stmt → State
  | .assign x e => (setVar σ.1 x (eval σ.1 e), σ.2)
  | .print f e => (σ.1, σ.2 ++ [(f, eval σ.1 e)])

/-- Run a statement list from a state. -/
noncomputable def runStmts (p : List Stmt) (σ : State) : State :=
  p.foldl step σ

/-- The initial state: empty environment, empty output. -/
noncomputable def initState : State := (fun _ => 0, [])

/-- The notebook's code cells, statement by statement, in source order.
(The import cell `%matplotlib inline; from numpy import *` binds no
variables and prints nothing, so it contributes no statement.) -/
def program : List Stmt :=
  [ .assign "mCO2_in" (.lit 34.5e9),
    .assign "mCO2_in" (.mul (.var "mCO2_in") (.lit 1000)),
    .print "Global CO2 emissions = \x7b:8.3g\x7d kg/yr" (.var "mCO2_in"),
    .assign "nCO2_accum" (.lit 2.4e-6),
    .assign "mwAir" (.lit 28.97),
    .assign "mwCO2" (.lit 44.01),
    .assign "wCO2_accum" (.div (.mul (.var "nCO2_accum") (.var "mwCO2")) (.var "mwAir")),
    .print "Accumulation Rate of CO2 = \x7b:8.3g\x7d kg CO2/kg air" (.var "wCO2_accum"),
    .assign "R" (.lit 6371000),
    .assign "A" (.mul (.mul (.lit 4) .pi) (.pow (.var "R") 2)),
    .assign "g" (.lit 9.81),
    .assign "P" (.lit 101325),
    .assign "mAir" (.div (.mul (.var "A") (.var "P")) (.var "g")),
    .print "Estimated mass of the atmosphere = \x7b:8.3g\x7d kg" (.var "mAir"),
    .assign "mCO2_accum" (.mul (.var "wCO2_accum") (.var "mAir")),
    .print "Change in CO2 = \x7b:8.3g\x7d kg CO2/year" (.var "mCO2_accum"),
    .assign "mCO2_out" (.sub (.var "mCO2_in") (.var "mCO2_accum")),
    .print "Global CO2 outflow = \x7b:8.3g\x7d kg CO2/yr" (.var "mCO2_out"),
    .assign "fCO2" (.div (.var "mCO2_accum") (.var "mCO2_in")),
    .print "Fraction of CO2 retained in the atmosphere = \x7b:<.2g\x7d " (.var "fCO2") ]

/-- The state after running the whole notebook. -/
noncomputable def finalState : State := runStmts program initState

/-- The print trace of the whole notebook. -/
noncomputable def theOutput : List (String × ℝ) := finalState.2

/-- The state after the first `i` statements. -/
noncomputable def stateAt (i : ℕ) : State := runStmts (program.take i) initState

/-- The variable an assignment statement writes, if any. -/
def Stmt.assignedVar : Stmt → Option String
  | .assign x _ => some x
  | .print _ _ => none

/-- The expression a statement evaluates. -/
def Stmt.expr : Stmt → Expr
  | .assign _ e => e
  | .print _ e => e

/-- The variables assigned by a statement list, in order, with repetition. -/
def assignedVars (p : List Stmt) : List String :=
  p.filterMap Stmt.assignedVar

/-- All denominators of division nodes occurring in an expression. -/
def Expr.denoms : Expr → List Expr
  | .add a b => a.denoms ++ b.denoms
  | .sub a b => a.denoms ++ b.denoms
  | .mul a b => a.denoms ++ b.denoms
  | .div a b => a.denoms ++ b.denoms ++ [b]
  | .pow a _ => a.denoms
  | _ => []

/-- All denominators of division nodes occurring anywhere in the program. -/
def programDenoms : List Expr :=
  (program.map (fun s => s.expr.denoms)).flatten

/-! ## Relational (big-step) semantics, for the determinism claim -/

/-- One-statement transition relation, mirroring `step`. -/
inductive StepR : State → Stmt → State → Prop
  | assign (env : Env) (out : List (String × ℝ)) (x : String) (e : Expr) :
      StepR (env, out) (.assign x e) (setVar env x (eval env e), out)
  | print (env : Env) (out : List (String × ℝ)) (f : String) (e : Expr) :
      StepR (env, out) (.print f e) (env, out ++ [(f, eval env e)])

/-- Big-step execution of a statement list. -/
inductive ExecR : State → List Stmt → State → Prop
  | nil (σ : State) : ExecR σ [] σ
  | cons {σ σ₁ σ₂ : State} {s : Stmt} {p : List Stmt} :
      StepR σ s σ₁ → ExecR σ₁ p σ₂ → ExecR σ (s :: p) σ₂

/-! ## Helper lemmas: each π-dependent quantity as π times a rational -/

lemma mAir_pi_form : mAir = Real.pi * (4 * 6371000 ^ 2 * 101325 / 9.81) := by
  unfold mAir A R P g
  ring

lemma mCO2_accum_pi_form :
    mCO2_accum =
      Real.pi * (2.4e-6 * 44.01 / 28.97 * (4 * 6371000 ^ 2 * 101325 / 9.81)) := by
  unfold mCO2_accum wCO2_accum nCO2_accum mwCO2 mwAir mAir A R P g
  ring

lemma mCO2_out_pi_form :
    mCO2_out =
      34.5e9 * 1000 -
        Real.pi * (2.4e-6 * 44.01 / 28.97 * (4 * 6371000 ^ 2 * 101325 / 9.81)) := by
  unfold mCO2_out mCO2_in mCO2_accum wCO2_accum nCO2_accum mwCO2 mwAir mAir A R P g
  ring

lemma fCO2_pi_form :
    fCO2 =
      Real.pi *
        (2.4e-6 * 44.01 / 28.97 * (4 * 6371000 ^ 2 * 101325 / 9.81) /
          (34.5e9 * 1000)) := by
  unfold fCO2 mCO2_accum wCO2_accum nCO2_accum mwCO2 mwAir mAir A R P g mCO2_in
  ring

lemma le_pi_mul {c b : ℝ} (hc : 0 ≤ c) (hb : b ≤ 3.141592 * c) : b ≤ Real.pi * c :=
  hb.trans (mul_le_mul_of_nonneg_right Real.pi_gt_d6.le hc)

lemma pi_mul_lt {c b : ℝ} (hc : 0 < c) (hb : 3.141593 * c ≤ b) : Real.pi * c < b :=
  lt_of_lt_of_le (mul_lt_mul_of_pos_right Real.pi_lt_d6 hc) hb

/-! ## Claims about the scalar quantities -/

/-- C1: the computed outflow equals inflow minus accumulation, where the
accumulation is the mass of the atmosphere times the mass-fraction growth
rate, itself the mole-fraction growth rate scaled by the molar-mass ratio:
`mCO2_out = mCO2_in - (mAir * (nCO2_accum * mwCO2 / mwAir))`. -/
theorem outflow_eq_inflow_sub_accumulation :
    mCO2_out = mCO2_in - mAir * (nCO2_accum * mwCO2 / mwAir) := by
  unfold mCO2_out mCO2_accum wCO2_accum
  ring

/-- C2: with the inflow of 34.5×10⁹ metric tonnes per year converted to
kg/yr, the outflow equals inflow minus accumulation and is strictly below
the inflow, the accumulation being strictly positive. -/
theorem outflow_balance :
    mCO2_in = 3.45e13 ∧ mCO2_out = mCO2_in - mCO2_accum ∧
      0 < mCO2_accum ∧ mCO2_out < mCO2_in := by
  have haccum : 0 < mCO2_accum := by
    rw [mCO2_accum_pi_form]
    have h := Real.pi_pos
    nlinarith
  refine ⟨by unfold mCO2_in; norm_num, rfl, haccum, ?_⟩
  unfold mCO2_out
  linarith

/-- C3: the retained fraction `fCO2 = mCO2_accum / mCO2_in` rounds to 0.56
at two significant figures (it lies in [0.555, 0.565)) and lies strictly
between 0 and 1. -/
theorem retained_fraction_bounds :
    (0.555 ≤ fCO2 ∧ fCO2 < 0.565) ∧ 0 < fCO2 ∧ fCO2 < 1 := by
  have hlo : (0.555 : ℝ) ≤ fCO2 := by
    rw [fCO2_pi_form]
    exact le_pi_mul (by norm_num) (by norm_num)
  have hhi : fCO2 < (0.565 : ℝ) := by
    rw [fCO2_pi_form]
    exact pi_mul_lt (by norm_num) (by norm_num)
  exact ⟨⟨hlo, hhi⟩, by linarith, by linarith⟩

/-- C4: the derived mass-fraction growth rate is the mole-fraction growth
rate times the molar-mass ratio, and rounds to 3.65×10⁻⁶ at three
significant figures (it lies in [3.645e-6, 3.655e-6)). -/
theorem mass_fraction_growth_bounds :
    wCO2_accum = nCO2_accum * mwCO2 / mwAir ∧
      3.645e-6 ≤ wCO2_accum ∧ wCO2_accum < 3.655e-6 := by
  refine ⟨rfl, ?_, ?_⟩ <;>
    · unfold wCO2_accum nCO2_accum mwCO2 mwAir
      norm_num

/-- C5: the atmospheric mass `mAir = (4·π·R²)·P/g` computed from
`R = 6371000`, `g = 9.81`, `P = 101325` rounds to 5.27×10¹⁸ at three
significant figures (it lies in [5.265e18, 5.275e18)). -/
theorem atmosphere_mass_bounds :
    mAir = 4 * Real.pi * R ^ 2 * P / g ∧
      5.265e18 ≤ mAir ∧ mAir < 5.275e18 := by
  refine ⟨rfl, ?_, ?_⟩
  · rw [mAir_pi_form]
    exact le_pi_mul (by norm_num) (by norm_num)
  · rw [mAir_pi_form]
    exact pi_mul_lt (by norm_num) (by norm_num)

/-- C10: every quantity the notebook computes is strictly positive. -/
theorem all_quantities_pos :
    0 < mCO2_in ∧ 0 < wCO2_accum ∧ 0 < mAir ∧
      0 < mCO2_accum ∧ 0 < mCO2_out ∧ 0 < fCO2 := by
  have hpi := Real.pi_pos
  refine ⟨?_, ?_, ?_, ?_, ?_, ?_⟩
  · unfold mCO2_in; norm_num
  · unfold wCO2_accum nCO2_accum mwCO2 mwAir; norm_num
  · rw [mAir_pi_form]; nlinarith
  · rw [mCO2_accum_pi_form]; nlinarith
  · rw [mCO2_out_pi_form]
    have h := pi_mul_lt (b := (3.45e13 : ℝ))
      (c := (2.4e-6 * 44.01 / 28.97 * (4 * 6371000 ^ 2 * 101325 / 9.81) : ℝ))
      (by norm_num) (by norm_num)
    linarith
  · rw [fCO2_pi_form]; nlinarith

/-! ## Claims about the program text and its execution -/

/-- C6 counterexample: the claim "no variable is reassigned after it has
been given its value" fails on the source: the variable `mCO2_in` is
assigned twice (first in metric tonnes, then converted in place to kg), so
the list of assigned variables is not duplicate-free. -/
theorem mCO2_in_reassigned :
    (assignedVars program).count "mCO2_in" = 2 ∧ ¬ (assignedVars program).Nodup := by
  constructor
  · rfl
  · decide

/-- C6 (amended): the scalars are assigned in one fixed order, and the only
reassignment is `mCO2_in`, written twice in immediate succession by the
unit conversion; after its first assignment no variable is ever reassigned
(the assignment list minus its head is duplicate-free). -/
theorem assignments_fixed_order :
    assignedVars program =
      ["mCO2_in", "mCO2_in", "nCO2_accum", "mwAir", "mwCO2", "wCO2_accum",
        "R", "A", "g", "P", "mAir", "mCO2_accum", "mCO2_out", "fCO2"] ∧
      (assignedVars program).tail.Nodup := by
  constructor
  · rfl
  · decide

/-! ### Determinism of execution -/

lemma stepR_det {σ σ₁ σ₂ : State} {s : Stmt}
    (h₁ : StepR σ s σ₁) (h₂ : StepR σ s σ₂) : σ₁ = σ₂ := by
  cases h₁ <;> cases h₂ <;> rfl

lemma execR_det {p : List Stmt} {σ σ₁ σ₂ : State}
    (h₁ : ExecR σ p σ₁) (h₂ : ExecR σ p σ₂) : σ₁ = σ₂ := by
  induction h₁ generalizing σ₂ with
  | nil _ => cases h₂; rfl
  | cons hs _ ih =>
    cases h₂ with
    | cons hs2 hp2 =>
      cases stepR_det hs hs2
      exact ih hp2

lemma stepR_step (σ : State) (s : Stmt) : StepR σ s (step σ s) := by
  cases s with
  | assign x e => exact StepR.assign σ.1 σ.2 x e
  | print f e => exact StepR.print σ.1 σ.2 f e

lemma execR_runStmts (p : List Stmt) : ∀ σ : State, ExecR σ p (runStmts p σ) := by
  induction p with
  | nil => exact fun σ => ExecR.nil σ
  | cons s p ih => exact fun σ => ExecR.cons (stepR_step σ s) (ih (step σ s))

/-- C9: the notebook's computation is deterministic: any two executions of
the full statement list from the initial state end in the same state —
the same value for every variable and the same printed output. -/
theorem program_deterministic (σ₁ σ₂ : State)
    (h₁ : ExecR initState program σ₁) (h₂ : ExecR initState program σ₂) :
    σ₁ = σ₂ :=
  execR_det h₁ h₂

/-- C9 witness: the program does execute (to `finalState`), and the
determinism theorem applies to that concrete execution. -/
theorem program_deterministic_witness :
    ExecR initState program finalState ∧ finalState = finalState :=
  ⟨execR_runStmts program initState,
    program_deterministic finalState finalState
      (execR_runStmts program initState) (execR_runStmts program initState)⟩

/-! ### Division safety and the print trace -/

/-- C7: the program has no branching (its statements are plain assignments
and prints by construction) and no reachable failure: the only division
nodes anywhere in the program are the three with denominators `mwAir`, `g`
and `mCO2_in` (at statements 6, 12 and 18), and each of those denominators
evaluates to a nonzero value in the state reached just before its
statement runs. -/
theorem no_division_by_zero :
    programDenoms = [Expr.var "mwAir", Expr.var "g", Expr.var "mCO2_in"] ∧
      (program.getD 6 (.print "" (.lit 0))).expr.denoms = [Expr.var "mwAir"] ∧
      (program.getD 12 (.print "" (.lit 0))).expr.denoms = [Expr.var "g"] ∧
      (program.getD 18 (.print "" (.lit 0))).expr.denoms = [Expr.var "mCO2_in"] ∧
      eval (stateAt 6).1 (.var "mwAir") ≠ 0 ∧
      eval (stateAt 12).1 (.var "g") ≠ 0 ∧
      eval (stateAt 18).1 (.var "mCO2_in") ≠ 0 := by
  refine ⟨rfl, rfl, rfl, rfl, ?_, ?_, ?_⟩ <;>
    · simp [stateAt, program, runStmts, step, eval, setVar, initState]
      norm_num

/-- C8: the notebook's observable output is exactly six printed lines, in
order: emissions, accumulation rate, atmospheric mass, CO2 change,
outflow, and retained fraction, each pairing the source's format string
with the corresponding computed value. -/
theorem output_trace :
    theOutput =
      [ ("Global CO2 emissions = \x7b:8.3g\x7d kg/yr", mCO2_in),
        ("Accumulation Rate of CO2 = \x7b:8.3g\x7d kg CO2/kg air", wCO2_accum),
        ("Estimated mass of the atmosphere = \x7b:8.3g\x7d kg", mAir),
        ("Change in CO2 = \x7b:8.3g\x7d kg CO2/year", mCO2_accum),
        ("Global CO2 outflow = \x7b:8.3g\x7d kg CO2/yr", mCO2_out),
        ("Fraction of CO2 retained in the atmosphere = \x7b:<.2g\x7d ", fCO2) ] := by
  simp [theOutput, finalState, program, runStmts, step, eval, setVar, initState]
  norm_num [mCO2_in, wCO2_accum, nCO2_accum, mwCO2, mwAir, mAir, A, R, P, g,
    mCO2_accum, mCO2_out, fCO2]

end CO2Budget
